import Mathlib

/-!
Shallow embedding of the FlickFusion access-gating and broadcast-dispatch
core (verification.py, forcejoin.py, main.py, broadcast.py), together with
theorems settling the frozen claims about it.

Timestamps are modelled as natural numbers counting seconds;
Python `datetime` subtraction that can be negative only ever feeds
comparisons whose outcome matches Nat truncated subtraction at every use
site, as noted at each definition.
-/

namespace FlickFusion

/-- Row of the `User` table as the membership-gating code (forcejoin.py)
handles it.  The three verification attributes that verification.py
additionally expects are carried here as optional values for
completeness, but they are NOT declared on the peewee model and never
reach storage (see `UserRow` below for the declared schema); the
membership code proved against this type touches only declared
columns. -/
structure UserRecord where
  user_id : Int
  username : Option String
  first_name : String
  last_name : Option String
  is_member : Bool
  last_checked : Nat
  verification_token : Option String
  token_created_at : Option Nat
  verified_until : Option Nat
  deriving DecidableEq

/-- Columns actually declared on database.py's peewee `User` model
(lines 49-56).  None of the three verification columns that
verification.py reads (`verification_token`, `token_created_at`,
`verified_until`) is declared here, and migrate_db.py cannot add them: it
alters a table named `users` while peewee maps `class User` to table
`user` (and its `information_schema` probe is PostgreSQL-only besides). -/
structure UserRow where
  user_id : Int
  username : Option String
  first_name : String
  last_name : Option String
  is_member : Bool
  last_checked : Nat
  joined_date : Nat
  deriving DecidableEq

/-- Python attribute read of a field the peewee model does not declare:
peewee installs accessors only for declared fields and `Model` has no
fallback, so such a read can only raise `AttributeError`.  The type
parameter records the value type the calling code expected. -/
inductive AttrRead (α : Type) where
  | raised (msg : String)

/-- Read of `user.verification_token` (verification.py line 132) on a
fetched row: the field is undeclared, so the read raises. -/
def read_verification_token (_user : UserRow) : AttrRead (Option String) :=
  .raised "AttributeError: verification_token"

/-- Read of `user.verified_until` (verification.py lines 103 and 186) on
a fetched row: the field is undeclared, so the read raises. -/
def read_verified_until (_user : UserRow) : AttrRead (Option Nat) :=
  .raised "AttributeError: verified_until"

/-- Embedding of verification.py `verify_token(user_id, token)`
(lines 119-160) against the declared schema.  The stored row for
`user_id` is passed as `rec` (`none` models `User.DoesNotExist`, which
returns False).  For an existing row the first step reads
`user.verification_token`; the raised `AttributeError` is not caught by
the inner `except User.DoesNotExist` but by the outer `except Exception`
at line 154, which returns False.  No path reaches `user.save()`, so the
row is returned unchanged, and `now` (the clock at the call) is never
consulted because execution raises before any time comparison. -/
def verify_token (_now : Nat) (rec : Option UserRow) (_token : String) :
    Bool × Option UserRow :=
  match rec with
  | none => (false, none)
  | some user =>
    match read_verification_token user with
    | .raised _ => (false, some user)

/-- Embedding of the database-store step of verification.py
`create_verification_link` (lines 44-66) against the declared schema.
The assignments to `verification_token` / `token_created_at` set plain
instance attributes that are not peewee fields, so `save()` persists
nothing of the token on an existing row, and `User.create` silently drops
the two undeclared keyword arguments: the created row has only the
declared columns, with `is_member`, `last_checked` and `joined_date`
taking their model defaults. -/
def store_issued_token (now : Nat) (uid : Int) (_token : String)
    (rec : Option UserRow) : UserRow :=
  match rec with
  | some user => user
  | none =>
    { user_id := uid
      username := none
      first_name := "User"
      last_name := none
      is_member := false
      last_checked := now
      joined_date := now }

/-- Result dictionary of verification.py `get_verification_status`,
including the `error` key added by the caught-exception branch. -/
structure VerificationStatus where
  is_verified : Bool
  admin_override : Bool
  time_remaining : Option Nat
  error : Option String
  deriving DecidableEq

/-- Embedding of verification.py `get_verification_status(user_id)`
(lines 162-216).  For an admin the early return at line 167 leaves
`need_to_close` unbound, and the `finally` at line 215 then raises
`UnboundLocalError` out of the function (an exception raised in a
`finally` is not caught by the same statement's `except`).  For a
non-admin with a stored row, reading `user.verified_until` at line 186
raises `AttributeError`, caught at line 205, which returns the error
dictionary; with no row the `User.DoesNotExist` dictionary is returned. -/
def get_verification_status (adminIds : List Int) (rec : Option UserRow)
    (uid : Int) : Except String VerificationStatus :=
  if uid ∈ adminIds then
    .error "UnboundLocalError: need_to_close"
  else
    match rec with
    | none =>
      .ok { is_verified := false, admin_override := false,
            time_remaining := none, error := none }
    | some user =>
      match read_verified_until user with
      | .raised e =>
        .ok { is_verified := false, admin_override := false,
              time_remaining := none, error := some e }

/-- Embedding of verification.py `is_user_verified(user_id)`
(lines 85-117).  The admin early return at line 90 leaves `need_to_close`
unbound and the `finally` at line 116 raises `UnboundLocalError`; a
non-admin with a stored row hits `AttributeError` on the undeclared
`verified_until` at line 103, caught at line 111 returning False; no row
returns False via `User.DoesNotExist`. -/
def is_user_verified (adminIds : List Int) (rec : Option UserRow)
    (uid : Int) : Except String Bool :=
  if uid ∈ adminIds then
    .error "UnboundLocalError: need_to_close"
  else
    match rec with
    | none => .ok false
    | some user =>
      match read_verified_until user with
      | .raised _ => .ok false

/-- Static channel requirement from config.py `REQUIRED_CHANNELS` (the
invite link is omitted: it never influences the probe). -/
structure ChannelRequirement where
  channel_id : Int
  channel_name : String
  deriving DecidableEq

/-- Outcome of one `get_chat_member` gateway call inside forcejoin.py
`check_user_membership`: either a member-status string, or a raised
`TelegramError`/`BadRequest` carrying its message. -/
inductive ChatMemberQuery where
  | ok (status : String)
  | err (msg : String)
  deriving DecidableEq

/-- Per-channel entry of the `results['channels']` dictionary built by
`check_user_membership`. -/
structure ChannelStatus where
  name : String
  is_member : Bool
  status : String
  error : Option String
  deriving DecidableEq

/-- Result dictionary of forcejoin.py `check_user_membership`; the
channels dictionary is kept as an association list in insertion order
(configured channel ids are distinct). -/
structure MembershipResult where
  is_member_of_all : Bool
  channels : List (Int × ChannelStatus)
  deriving DecidableEq

/-- Status strings accepted as membership (forcejoin.py line 40). -/
def member_statuses : List String := ["member", "administrator", "creator"]

/-- Entry recorded for one channel by the loop body of
`check_user_membership` (forcejoin.py lines 35-61): on success the status
string decides membership; on error the channel is marked not-a-member
with status `"error"` and the error message attached. -/
def channel_entry (query : Int → ChatMemberQuery) (ch : ChannelRequirement) :
    Int × ChannelStatus :=
  match query ch.channel_id with
  | .ok status =>
    (ch.channel_id,
      { name := ch.channel_name
        is_member := decide (status ∈ member_statuses)
        status := status
        error := none })
  | .err e =>
    (ch.channel_id,
      { name := ch.channel_name
        is_member := false
        status := "error"
        error := some e })

/-- One iteration of the channel loop of `check_user_membership`: the entry
is recorded and `is_member_of_all` is forced to false on a non-member
status as well as on a query error. -/
def membership_step (query : Int → ChatMemberQuery)
    (results : MembershipResult) (ch : ChannelRequirement) : MembershipResult :=
  match query ch.channel_id with
  | .ok status =>
    { is_member_of_all :=
        if decide (status ∈ member_statuses) then results.is_member_of_all else false
      channels := results.channels ++ [channel_entry query ch] }
  | .err _ =>
    { is_member_of_all := false
      channels := results.channels ++ [channel_entry query ch] }

/-- Embedding of forcejoin.py `check_user_membership(user_id, context)`
(lines 14-66): one pass over the configured channels starting from
"member of all" true and an empty channels dictionary. -/
def check_user_membership (query : Int → ChatMemberQuery)
    (required : List ChannelRequirement) : MembershipResult :=
  required.foldl (membership_step query) { is_member_of_all := true, channels := [] }

/-- Embedding of the database-persist step of forcejoin.py
`update_user_membership` (lines 86-118): the probe aggregate and the
checked-at timestamp are written unconditionally, the identity fields only
when truthy (modelled as `Option`, `none` for falsy), and a missing row is
created with `first_name or "User"` and no verification fields. -/
def update_user_membership_record (now : Nat) (uid : Int)
    (username first_name last_name : Option String) (is_mem : Bool)
    (rec : Option UserRecord) : UserRecord :=
  match rec with
  | some user =>
    { user with
        is_member := is_mem
        last_checked := now
        username := match username with | some v => some v | none => user.username
        first_name := match first_name with | some v => v | none => user.first_name
        last_name := match last_name with | some v => some v | none => user.last_name }
  | none =>
    { user_id := uid
      username := username
      first_name := match first_name with | some v => v | none => "User"
      last_name := last_name
      is_member := is_mem
      last_checked := now
      verification_token := none
      token_created_at := none
      verified_until := none }

/-- Cached-membership read of forcejoin.py `force_join` (lines 148-151): a
stored row counts as a fresh member when `is_member` is set and the entry
is younger than 600 seconds.  `now - last_checked` uses Nat subtraction: a
negative Python difference is likewise below the TTL. -/
def is_member_cached (now : Nat) (rec : Option UserRecord) : Bool :=
  match rec with
  | some user => user.is_member && decide (now - user.last_checked < 600)
  | none => false

/-- Progress-reporting state of the dispatch loop in main.py
`broadcast_callback`: indices already edited at, and the
`last_update_time` clock reading. -/
structure ProgressState where
  edits : List Nat
  last_update : Nat
  deriving DecidableEq

/-- One iteration of the progress-edit decision in main.py
`broadcast_callback` (lines 356-365): at recipient index `i` the status
message is edited when `i % 20 == 0` or at least 5 seconds have elapsed
since the last edit; `timeAt i` is the `time.time()` reading at that
iteration. -/
def progress_step (timeAt : Nat → Nat) (st : ProgressState) (i : Nat) : ProgressState :=
  if i % 20 = 0 ∨ 5 ≤ timeAt i - st.last_update then
    { edits := st.edits ++ [i], last_update := timeAt i }
  else
    st

/-- Indices at which the dispatch loop of `broadcast_callback` edits the
persistent status message, for `total` recipients, initial clock `t0` (read
when the progress message is posted, line 351) and per-iteration clock
`timeAt`. -/
def progress_edits (total t0 : Nat) (timeAt : Nat → Nat) : List Nat :=
  ((List.range total).foldl (progress_step timeAt) { edits := [], last_update := t0 }).edits

/-- Total number of edits of the one persistent status message over a full
run: the in-loop progress edits plus the single final-summary edit
(main.py lines 506-511). -/
def status_message_edit_count (total t0 : Nat) (timeAt : Nat → Nat) : Nat :=
  (progress_edits total t0 timeAt).length + 1

/-- Send loop of main.py `broadcast_callback` (lines 354-495) over the
recipient snapshot, recursing on the remaining recipients with `i` the
current index.  `sendOk i` tells whether the gateway send for the i-th
recipient succeeds or raises; a raise is caught and counted as failed.
Returns the recipients a send was attempted for, in order, with the final
(successful, failed) counters. -/
def dispatch_loop (sendOk : Nat → Bool) : Nat → List Int → List Int × Nat × Nat
  | _, [] => ([], 0, 0)
  | i, uid :: rest =>
    if sendOk i then
      (uid :: (dispatch_loop sendOk (i + 1) rest).1,
       (dispatch_loop sendOk (i + 1) rest).2.1 + 1,
       (dispatch_loop sendOk (i + 1) rest).2.2)
    else
      (uid :: (dispatch_loop sendOk (i + 1) rest).1,
       (dispatch_loop sendOk (i + 1) rest).2.1,
       (dispatch_loop sendOk (i + 1) rest).2.2 + 1)

/-- Dispatch of main.py `broadcast_callback` over the frozen snapshot
`users`; the snapshot is the only recipient input, so later user-store
mutations cannot influence the run. -/
def run_dispatch (users : List Int) (sendOk : Nat → Bool) : List Int × Nat × Nat :=
  dispatch_loop sendOk 0 users

/-- Tally loop of broadcast.py `send_broadcast` (lines 256-311), same
catch-and-count discipline, enumerating from 1. -/
def send_broadcast_loop (sendOk : Nat → Bool) : Nat → List Int → Nat × Nat
  | _, [] => (0, 0)
  | i, _ :: rest =>
    if sendOk i then
      ((send_broadcast_loop sendOk (i + 1) rest).1 + 1,
       (send_broadcast_loop sendOk (i + 1) rest).2)
    else
      ((send_broadcast_loop sendOk (i + 1) rest).1,
       (send_broadcast_loop sendOk (i + 1) rest).2 + 1)

/-- Final (successful, failed) counters of broadcast.py `send_broadcast`. -/
def send_broadcast_tally (users : List Int) (sendOk : Nat → Bool) : Nat × Nat :=
  send_broadcast_loop sendOk 1 users

/-- Completion-rate computation of the final report in main.py
`broadcast_callback` (line 503): `round((successful/total)*100)` raises
`ZeroDivisionError` when `total = 0`, modelled as `none`; the float
rounding is not modelled since no claim depends on it. -/
def completion_rate (successful total : Nat) : Option ℚ :=
  if total = 0 then none else some ((successful : ℚ) / (total : ℚ) * 100)

/-- Final-summary edit of `broadcast_callback` (lines 497-511): the
summary exists only when the completion rate computes; on
`ZeroDivisionError` the exception propagates and no summary message is
produced. -/
def broadcast_final_summary (users : List Int) (sendOk : Nat → Bool) :
    Option (Nat × Nat × Nat × ℚ) :=
  match completion_rate (run_dispatch users sendOk).2.1 users.length with
  | none => none
  | some rate =>
    some ((run_dispatch users sendOk).2.1, (run_dispatch users sendOk).2.2,
          users.length, rate)

/-- Concrete `UserRecord` used by the membership-cache witness; the
optional verification attributes it carries are never consulted by the
membership code. -/
def sampleUser : UserRecord :=
  { user_id := 1
    username := none
    first_name := "User"
    last_name := none
    is_member := false
    last_checked := 0
    verification_token := some "tok0"
    token_created_at := some 0
    verified_until := none }

/-- Concrete declared-schema row used to instantiate the verification
theorems. -/
def sampleRow : UserRow :=
  { user_id := 1
    username := none
    first_name := "User"
    last_name := none
    is_member := false
    last_checked := 0
    joined_date := 0 }

/-- C1, evaluation of the code at the failing input.  The claim's premise
can never hold: with the token stored for user 1 at time 0 (the store
step persists none of it), redemption with the exact token returns False
at time 10 and again at time 20 — `verify_token` raises `AttributeError`
on the undeclared `verification_token` field, caught and returned as
False — so no redemption ever succeeds, clears a token, or writes
`verified_until`. -/
theorem verify_token_double_redemption_fails :
    verify_token 10 (some (store_issued_token 0 1 "tok0" none)) "tok0"
      = (false, some (store_issued_token 0 1 "tok0" none)) ∧
    verify_token 20 (some (store_issued_token 0 1 "tok0" none)) "tok0"
      = (false, some (store_issued_token 0 1 "tok0" none)) :=
  ⟨rfl, rfl⟩

/-- C2.  For every admin identity the status operations do not
short-circuit cleanly: the early admin return leaves `need_to_close`
unbound, so both `get_verification_status` and `is_user_verified` raise
`UnboundLocalError` from their `finally` blocks instead of returning the
admin answer, whatever ledger record is stored. -/
theorem admin_status_unbound_local (adminIds : List Int) (rec : Option UserRow)
    (uid : Int) (h : uid ∈ adminIds) :
    get_verification_status adminIds rec uid =
      .error "UnboundLocalError: need_to_close" ∧
    is_user_verified adminIds rec uid =
      .error "UnboundLocalError: need_to_close" := by
  unfold get_verification_status is_user_verified
  simp [h]

/-- C2, witness: admin id 7 with a stored row. -/
theorem admin_status_unbound_local_witness :
    (7 : Int) ∈ [(7 : Int)] ∧
    (get_verification_status [7] (some sampleRow) 7 =
       .error "UnboundLocalError: need_to_close" ∧
     is_user_verified [7] (some sampleRow) 7 =
       .error "UnboundLocalError: need_to_close") :=
  ⟨by decide, admin_status_unbound_local [7] (some sampleRow) 7 (by decide)⟩

/-- C3, evaluation of the code at the failing input.  A token stored for
user 1 at time 0 and redeemed with the exact token 3599 seconds later —
inside the claimed window — still fails: the store step persists no token
(undeclared peewee attributes are dropped, so an existing row is saved
unchanged, witnessed by the second conjunct) and `verify_token` raises
`AttributeError` on the undeclared field, returning False. -/
theorem redeem_within_window_fails :
    verify_token 3599 (some (store_issued_token 0 1 "t" none)) "t"
      = (false, some (store_issued_token 0 1 "t" none)) ∧
    (∀ u : UserRow, store_issued_token 5 2 "tnew" (some u) = u) :=
  ⟨rfl, fun _ => rfl⟩

/-- C7.  Whenever `verify_token` fails — in this build every call fails,
via `User.DoesNotExist` or the caught `AttributeError` — the stored
record it returns is exactly the input record: no failing path reaches
`user.save()`, so no field is mutated. -/
theorem verify_token_failure_no_mutation (now : Nat) (rec : Option UserRow)
    (tok : String) (h : (verify_token now rec tok).1 = false) :
    (verify_token now rec tok).2 = rec := by
  cases rec with
  | none => rfl
  | some user => rfl

/-- C7, witness: a failing call on the concrete row leaves it untouched. -/
theorem verify_token_failure_no_mutation_witness :
    (verify_token 0 (some sampleRow) "wrong").1 = false ∧
    (verify_token 0 (some sampleRow) "wrong").2 = some sampleRow :=
  ⟨rfl, verify_token_failure_no_mutation 0 (some sampleRow) "wrong" rfl⟩

/-- C9, evaluation of the code.  No redemption ever succeeds — for every
clock reading, stored row and supplied token the result is False with the
row unchanged — so the program admits no successful redemption that could
replace `verified_until` (which is not even a declared column): the
monotone-replacement invariant is vacuous of this build. -/
theorem verify_token_never_succeeds (now : Nat) (rec : Option UserRow)
    (tok : String) :
    (verify_token now rec tok).1 = false ∧ (verify_token now rec tok).2 = rec := by
  cases rec with
  | none => exact ⟨rfl, rfl⟩
  | some user => exact ⟨rfl, rfl⟩

/-- Every channel-loop step appends exactly its own entry to the channels
dictionary. -/
theorem membership_step_channels (query : Int → ChatMemberQuery)
    (results : MembershipResult) (ch : ChannelRequirement) :
    (membership_step query results ch).channels =
      results.channels ++ [channel_entry query ch] := by
  unfold membership_step
  cases hq : query ch.channel_id with
  | ok s => simp [hq]
  | err e => simp [hq]

/-- Once the aggregate flag is false it stays false through the rest of the
channel loop. -/
theorem foldl_membership_false (query : Int → ChatMemberQuery)
    (l : List ChannelRequirement) :
    ∀ res : MembershipResult, res.is_member_of_all = false →
      (l.foldl (membership_step query) res).is_member_of_all = false := by
  induction l with
  | nil => intro res h; simpa using h
  | cons ch rest ih =>
    intro res h
    rw [List.foldl_cons]
    apply ih
    unfold membership_step
    cases hq : query ch.channel_id with
    | ok s => simp [hq, h]
    | err e => simp [hq]

/-- The channel loop records one entry per configured channel, in order. -/
theorem foldl_membership_channels (query : Int → ChatMemberQuery)
    (l : List ChannelRequirement) :
    ∀ res : MembershipResult,
      (l.foldl (membership_step query) res).channels =
        res.channels ++ l.map (channel_entry query) := by
  induction l with
  | nil => intro res; simp
  | cons ch rest ih =>
    intro res
    rw [List.foldl_cons, ih, membership_step_channels]
    simp

/-- Processing any channel whose query errors forces the aggregate flag to
false for good. -/
theorem foldl_membership_err_false (query : Int → ChatMemberQuery) (e : String) :
    ∀ (l : List ChannelRequirement) (res : MembershipResult)
      (ch : ChannelRequirement), ch ∈ l → query ch.channel_id = .err e →
      (l.foldl (membership_step query) res).is_member_of_all = false := by
  intro l
  induction l with
  | nil => intro res ch hmem _; exact absurd hmem (List.not_mem_nil ch)
  | cons c rest ih =>
    intro res ch hmem herr
    rw [List.foldl_cons]
    rcases List.mem_cons.mp hmem with hceq | hmem'
    · subst hceq
      apply foldl_membership_false
      simp [membership_step, herr]
    · exact ih _ ch hmem' herr

/-- C8.  The membership probe is fail-closed: a channel whose gateway query
raises is recorded as not-a-member with status `"error"` and the error
message attached, and the aggregate `is_member_of_all` is false. -/
theorem membership_probe_fail_closed (query : Int → ChatMemberQuery)
    (required : List ChannelRequirement) (ch : ChannelRequirement) (e : String)
    (hch : ch ∈ required) (herr : query ch.channel_id = .err e) :
    (check_user_membership query required).is_member_of_all = false ∧
    (ch.channel_id,
      { name := ch.channel_name, is_member := false,
        status := "error", error := some e }) ∈
      (check_user_membership query required).channels := by
  constructor
  · exact foldl_membership_err_false query e required _ ch hch herr
  · unfold check_user_membership
    rw [foldl_membership_channels]
    refine List.mem_append.mpr (Or.inr (List.mem_map.mpr ⟨ch, hch, ?_⟩))
    simp [channel_entry, herr]

/-- C8, witness: one configured channel whose query raises `"boom"`. -/
theorem membership_probe_fail_closed_witness :
    ((⟨5, "Main"⟩ : ChannelRequirement) ∈ [(⟨5, "Main"⟩ : ChannelRequirement)] ∧
     (fun i : Int => if i = 5 then ChatMemberQuery.err "boom"
        else ChatMemberQuery.ok "member") (5 : Int) = ChatMemberQuery.err "boom") ∧
    ((check_user_membership
        (fun i : Int => if i = 5 then ChatMemberQuery.err "boom"
          else ChatMemberQuery.ok "member")
        [⟨5, "Main"⟩]).is_member_of_all = false ∧
     ((5 : Int),
       { name := "Main", is_member := false,
         status := "error", error := some "boom" }) ∈
       (check_user_membership
         (fun i : Int => if i = 5 then ChatMemberQuery.err "boom"
           else ChatMemberQuery.ok "member")
         [⟨5, "Main"⟩]).channels) :=
  ⟨⟨by decide, by decide⟩,
   membership_probe_fail_closed
     (fun i : Int => if i = 5 then ChatMemberQuery.err "boom"
       else ChatMemberQuery.ok "member")
     [⟨5, "Main"⟩] ⟨5, "Main"⟩ "boom" (by decide) (by decide)⟩

/-- C6.  Immediately after the persist step writes a probe result with
`is_member_of_all = true` at clock `checked_at`, the cached membership
read of `force_join` answers true at every clock reading less than 600
seconds past `checked_at`. -/
theorem refresh_then_cached (query : Int → ChatMemberQuery)
    (required : List ChannelRequirement) (checked_at now : Nat) (uid : Int)
    (username first_name last_name : Option String) (rec : Option UserRecord)
    (hall : (check_user_membership query required).is_member_of_all = true)
    (httl : now - checked_at < 600) :
    is_member_cached now
      (some (update_user_membership_record checked_at uid username first_name
        last_name (check_user_membership query required).is_member_of_all rec)) = true := by
  rw [hall]
  cases rec with
  | some user => simp [is_member_cached, update_user_membership_record, httl]
  | none => simp [is_member_cached, update_user_membership_record, httl]

/-- C6, witness: a one-channel probe answering `"member"`, persisted at
clock 100 and read back at clock 400. -/
theorem refresh_then_cached_witness :
    ((check_user_membership (fun _ : Int => ChatMemberQuery.ok "member")
        [⟨5, "Main"⟩]).is_member_of_all = true ∧
     400 - 100 < 600) ∧
    is_member_cached 400
      (some (update_user_membership_record 100 1 none none none
        (check_user_membership (fun _ : Int => ChatMemberQuery.ok "member")
          [⟨5, "Main"⟩]).is_member_of_all
        (some sampleUser))) = true :=
  ⟨⟨by decide, by decide⟩,
   refresh_then_cached (fun _ : Int => ChatMemberQuery.ok "member") [⟨5, "Main"⟩]
     100 400 1 none none none (some sampleUser) (by decide) (by decide)⟩

/-- With a constant clock the `last_update_time` of the progress loop never
moves. -/
theorem progress_last_update_const (t0 : Nat) (l : List Nat) :
    ∀ st : ProgressState, st.last_update = t0 →
      (l.foldl (progress_step (fun _ => t0)) st).last_update = t0 := by
  induction l with
  | nil => intro st h; exact h
  | cons i rest ih =>
    intro st h
    rw [List.foldl_cons]
    apply ih
    unfold progress_step
    split
    · rfl
    · exact h

/-- With a constant clock (sends faster than the 5-second cadence) the
progress loop edits exactly at the indices divisible by 20. -/
theorem progress_edits_const_aux (t0 : Nat) (l : List Nat) :
    ∀ st : ProgressState, st.last_update = t0 →
      (l.foldl (progress_step (fun _ => t0)) st).edits =
        st.edits ++ l.filter (fun i => i % 20 = 0) := by
  induction l with
  | nil => intro st _; simp
  | cons i rest ih =>
    intro st h
    rw [List.foldl_cons, List.filter_cons]
    by_cases hc : i % 20 = 0
    · have hstep : progress_step (fun _ => t0) st i =
          { edits := st.edits ++ [i], last_update := t0 } := by
        simp [progress_step, hc]
      rw [hstep, ih _ rfl]
      simp [hc]
    · have hcond : ¬(i % 20 = 0 ∨ 5 ≤ t0 - st.last_update) := by
        rw [h]
        simp [hc]
      have hstep : progress_step (fun _ => t0) st i = st := by
        simp [progress_step, hcond]
      rw [hstep, ih st h]
      simp [hc]

/-- C4, counterexample.  With cadence 20 / 5 s, a 45-recipient snapshot and
sends faster than the time cadence, the code edits the status message at
loop indices 0, 20 and 40 (the `i % 20 == 0` test also fires at the very
first iteration) and once more for the final summary: 4 edits in total,
not the 3 the claim states. -/
theorem progress_edit_count_is_four :
    progress_edits 45 0 (fun _ => 0) = [0, 20, 40] ∧
    status_message_edit_count 45 0 (fun _ => 0) = 4 ∧
    status_message_edit_count 45 0 (fun _ => 0) ≠ 3 := by
  decide

/-- C4, amended.  Progress reporting is at the configured cadence, never
per-send: with a constant clock the progress edits are exactly the indices
divisible by 20, so a 45-recipient run performs exactly 4 edits of the one
persistent status message — progress edits at indices 0, 20 and 40 plus
the final summary edit — far fewer than one edit per individual send. -/
theorem progress_edit_cadence :
    (∀ total t0 : Nat, progress_edits total t0 (fun _ => t0) =
        (List.range total).filter (fun i => i % 20 = 0)) ∧
    progress_edits 45 0 (fun _ => 0) = [0, 20, 40] ∧
    status_message_edit_count 45 0 (fun _ => 0) = 4 ∧
    status_message_edit_count 45 0 (fun _ => 0) < 45 := by
  refine ⟨fun total t0 => ?_, by decide, by decide, by decide⟩
  unfold progress_edits
  rw [progress_edits_const_aux t0 (List.range total) _ rfl]
  simp

/-- C5.  Dispatch attempts one send per snapshot entry — the attempted
list is the snapshot itself, whatever the pattern of per-send failures —
and the final counters of both dispatch loops satisfy
succeeded + failed = N. -/
theorem dispatch_attempts_all (users : List Int) (sendOk : Nat → Bool) :
    (run_dispatch users sendOk).1 = users ∧
    (run_dispatch users sendOk).2.1 + (run_dispatch users sendOk).2.2 = users.length ∧
    (send_broadcast_tally users sendOk).1 + (send_broadcast_tally users sendOk).2 =
      users.length := by
  have hd : ∀ (l : List Int) (i : Nat),
      (dispatch_loop sendOk i l).1 = l ∧
      (dispatch_loop sendOk i l).2.1 + (dispatch_loop sendOk i l).2.2 = l.length := by
    intro l
    induction l with
    | nil => intro i; simp [dispatch_loop]
    | cons uid rest ih =>
      intro i
      have h := ih (i + 1)
      by_cases hs : sendOk i = true
      · refine ⟨?_, ?_⟩
        · simp [dispatch_loop, hs, h.1]
        · have h2 := h.2
          simp [dispatch_loop, hs]
          omega
      · refine ⟨?_, ?_⟩
        · simp [dispatch_loop, hs, h.1]
        · have h2 := h.2
          simp [dispatch_loop, hs]
          omega
  have hb : ∀ (l : List Int) (i : Nat),
      (send_broadcast_loop sendOk i l).1 + (send_broadcast_loop sendOk i l).2 =
        l.length := by
    intro l
    induction l with
    | nil => intro i; simp [send_broadcast_loop]
    | cons uid rest ih =>
      intro i
      have h := ih (i + 1)
      by_cases hs : sendOk i = true
      · simp [send_broadcast_loop, hs]
        omega
      · simp [send_broadcast_loop, hs]
        omega
  exact ⟨(hd users 0).1, (hd users 0).2, hb users 1⟩

/-- C10.  A confirmed broadcast with an empty snapshot makes no send
attempt, and the final-summary computation divides by the zero total, so
the completion summary is never produced. -/
theorem empty_broadcast_no_summary (sendOk : Nat → Bool) :
    run_dispatch [] sendOk = ([], 0, 0) ∧
    broadcast_final_summary [] sendOk = none :=
  ⟨rfl, rfl⟩

end FlickFusion
